import Mathlib

set_option maxHeartbeats 1000000

namespace CardinalApp

/-! Shallow embedding of the Cardinal container-provisioning service.

Definitions are translated from the JavaScript sources:
  src/Cardinal/src/services/ContainerService.js
  src/Cardinal/src/services/ProxmoxService.js
  src/src/models/Container.js      (SQLite record store, schema in database.js)
  src/unnamed/part_000             (src/utils/crypto.js, class CryptoUtils)

External effects (HTTP responses from the Proxmox API, the random IV from
crypto.randomBytes, generated passwords, SQLite clock values, fresh row ids)
are passed in as explicit arguments, so every function is a pure, executable
translation of the corresponding JavaScript control flow. -/

/-- Model of a JavaScript value as it occurs in the container configuration
objects: `undefined`, a string, or a (non-negative) number. -/
inductive JsVal where
  | undef
  | s (v : String)
  | n (v : Nat)
  deriving DecidableEq

/-- JavaScript truthiness for `JsVal`: `undefined`, the empty string and the
number 0 are falsy, everything else is truthy. -/
def JsVal.truthy : JsVal → Bool
  | .undef => false
  | .s v => v ≠ ""
  | .n v => v ≠ 0

/-- JavaScript `a || b` on modelled values. -/
def jsOr (a b : JsVal) : JsVal :=
  if a.truthy then a else b

/-- String interpolation of a modelled JavaScript value, as in a template
literal: numbers print in decimal, `undefined` prints as "undefined". -/
def JsVal.toStr : JsVal → String
  | .undef => "undefined"
  | .s v => v
  | .n v => toString v

/-- JavaScript truthiness of a nullable string argument (`null`/absent and the
empty string are falsy). -/
def jsTruthyStr : Option String → Bool
  | none => false
  | some s => s ≠ ""

/-! Hex encoding, as produced by `Buffer.toString` with the hex encoding in
`iv.toString('hex')` (crypto.js line 18). -/

/-- Hex digit character for one nibble value 0..15. -/
def hexDigit (v : Nat) : Char :=
  "0123456789abcdef".data.getD (v % 16) '0'

/-- Numeric value of a hex digit character (inverse of `hexDigit`). -/
def hexVal (ch : Char) : Nat :=
  if ch = '0' then 0 else if ch = '1' then 1 else if ch = '2' then 2
  else if ch = '3' then 3 else if ch = '4' then 4 else if ch = '5' then 5
  else if ch = '6' then 6 else if ch = '7' then 7 else if ch = '8' then 8
  else if ch = '9' then 9 else if ch = 'a' then 10 else if ch = 'b' then 11
  else if ch = 'c' then 12 else if ch = 'd' then 13 else if ch = 'e' then 14
  else if ch = 'f' then 15 else 0

/-- Hex characters of a byte list (the hex rendering of a Buffer): two hex
digits per byte, high nibble first. -/
def hexChars : List Nat → List Char
  | [] => []
  | b :: rest => hexDigit (b / 16) :: hexDigit (b % 16) :: hexChars rest

/-- Decode a hex character list back to bytes, two characters per byte. -/
def unhexChars : List Char → List Nat
  | h :: l :: rest => (16 * hexVal h + hexVal l) :: unhexChars rest
  | _ => []

/-- JavaScript `str.split` with separator character ':' — every occurrence
splits, and the result always has at least one (possibly empty) segment. -/
def splitOnColon : List Char → List (List Char)
  | [] => [[]]
  | c :: rest =>
    let r := splitOnColon rest
    if c = ':' then [] :: r
    else (c :: r.headD []) :: r.tail

/-- The symmetric cipher behind `crypto.createCipher` and
`crypto.createDecipher` for a fixed algorithm and key. The Node library
guarantees that for one key the decipher inverts the cipher and that the hex
output contains no ':' character; those facts are stated as the separate
predicates `CipherRoundtrip` and `CipherColonFree` and assumed where needed. -/
structure SymCipher where
  enc : String → String
  dec : String → String

/-- The decipher built from the same key inverts the cipher. -/
def CipherRoundtrip (c : SymCipher) : Prop :=
  ∀ s, c.dec (c.enc s) = s

/-- The cipher output is hex text: it never contains the ':' delimiter. -/
def CipherColonFree (c : SymCipher) : Prop :=
  ∀ s, ':' ∉ (c.enc s).data

/-- A 16-byte initialization vector as drawn by `crypto.randomBytes(16)`. -/
def ValidIV (iv : List Nat) : Prop :=
  iv.length = 16 ∧ ∀ b ∈ iv, b < 256

/-- CryptoUtils.encrypt (crypto.js lines 9-19): returns null on falsy input;
otherwise draws a random 16-byte IV (passed here as the argument `iv`),
enciphers the text with `createCipher` (which ignores the IV) and returns the
envelope `ivHex + ':' + cipherHex`. -/
def CryptoUtils.encrypt (c : SymCipher) (iv : List Nat) (text : Option String) :
    Option String :=
  match text with
  | none => none
  | some t =>
    if t = "" then none
    else some (String.mk (hexChars iv ++ ':' :: (c.enc t).data))

/-- CryptoUtils.decrypt (crypto.js lines 21-34): returns null on falsy input;
otherwise splits the envelope on ':' and deciphers the second segment with
`createDecipher` (the IV segment is parsed but unused). A malformed envelope
with no ':' makes the JavaScript throw (the spec's DecryptionError); that
failure is modelled as null here since no claim depends on it. -/
def CryptoUtils.decrypt (c : SymCipher) (encryptedText : Option String) :
    Option String :=
  match encryptedText with
  | none => none
  | some e =>
    if e = "" then none
    else
      match splitOnColon e.data with
      | _ :: p1 :: _ => some (c.dec (String.mk p1))
      | _ => none

/-! A concrete cipher used to instantiate `SymCipher` in witnesses: an
injective escaping of ':' and '!' whose output never contains ':'. -/

/-- Escape ':' as "!c" and '!' as "!b"; all other characters pass through. -/
def encChars : List Char → List Char
  | [] => []
  | c :: rest =>
    if c = ':' then '!' :: 'c' :: encChars rest
    else if c = '!' then '!' :: 'b' :: encChars rest
    else c :: encChars rest

/-- Inverse of `encChars` on encoded text. -/
def decChars : List Char → List Char
  | [] => []
  | [c] => [c]
  | c :: d :: rest =>
    if c = '!' then (if d = 'c' then ':' else '!') :: decChars rest
    else c :: decChars (d :: rest)

/-- A concrete `SymCipher` satisfying `CipherRoundtrip` and
`CipherColonFree`. -/
def toyCipher : SymCipher :=
  { enc := fun s => String.mk (encChars s.data)
    dec := fun s => String.mk (decChars s.data) }

/-! The containers table (database.js lines 37-50) and the Container model
(Container.js). A row mirrors the SQL columns; `password` stores the
ciphertext envelope, timestamps are abstract clock values. -/

/-- One row of the containers table. -/
structure Row where
  id : Nat
  ct_id : String
  name : String
  ip_address : Option String
  username : String
  password : Option String
  status : String
  jenkins_job_id : Option String
  created_at : Nat
  updated_at : Nat
  deriving DecidableEq

/-- Input of Container.create. -/
structure CreateData where
  ct_id : String
  name : String
  username : String
  password : String
  jenkins_job_id : Option String
  deriving DecidableEq

/-- The object Container.create resolves with (Container.js lines 27-33). -/
structure CreatedRecord where
  id : Nat
  ct_id : String
  name : String
  username : String
  jenkins_job_id : Option String
  deriving DecidableEq

/-- Container.create (Container.js lines 6-36): encrypts the password and
INSERTs a row. The schema's UNIQUE constraint on ct_id and the NOT NULL
constraint on password reject the insert with an error, leaving the table
unchanged; `newId` is the AUTOINCREMENT key and `now` is CURRENT_TIMESTAMP,
which also fills the status column with its default value "creating". -/
def Container.create (c : SymCipher) (iv : List Nat) (db : List Row)
    (data : CreateData) (newId now : Nat) :
    Except String (List Row × CreatedRecord) :=
  if db.any (fun r => r.ct_id = data.ct_id) then
    .error "UNIQUE constraint failed: containers.ct_id"
  else
    match CryptoUtils.encrypt c iv (some data.password) with
    | none => .error "NOT NULL constraint failed: containers.password"
    | some encryptedPassword =>
      .ok (db ++ [{ id := newId, ct_id := data.ct_id, name := data.name,
                    ip_address := none, username := data.username,
                    password := some encryptedPassword, status := "creating",
                    jenkins_job_id := data.jenkins_job_id,
                    created_at := now, updated_at := now }],
           { id := newId, ct_id := data.ct_id, name := data.name,
             username := data.username,
             jenkins_job_id := data.jenkins_job_id })

/-- Container.findByCtId (Container.js lines 61-82): first row matching the
ct_id, with its password column replaced by the decrypted plaintext. -/
def Container.findByCtId (c : SymCipher) (db : List Row) (ct_id : String) :
    Option Row :=
  match db.find? (fun r => r.ct_id = ct_id) with
  | none => none
  | some row => some { row with password := CryptoUtils.decrypt c row.password }

/-- Container.updateStatus (Container.js lines 84-110): sets status and
updated_at on every row matching the ct_id; the ip_address column is touched
only when the argument is truthy (non-null and non-empty). Returns the new
table and whether any row changed. -/
def Container.updateStatus (db : List Row) (ct_id status : String)
    (ip_address : Option String) (now : Nat) : List Row × Bool :=
  (db.map (fun r =>
      if r.ct_id = ct_id then
        { r with status := status, updated_at := now,
                 ip_address := if jsTruthyStr ip_address then ip_address
                               else r.ip_address }
      else r),
   db.any (fun r => r.ct_id = ct_id))

/-- The ORDER BY created_at DESC relation used by Container.getAll. -/
def byCreatedDesc (a b : Row) : Prop :=
  b.created_at ≤ a.created_at

instance : DecidableRel byCreatedDesc :=
  fun a b => Nat.decLe b.created_at a.created_at

instance : IsTotal Row byCreatedDesc :=
  ⟨fun a b => Nat.le_total b.created_at a.created_at⟩

instance : IsTrans Row byCreatedDesc :=
  ⟨fun _ _ _ hab hbc => Nat.le_trans hbc hab⟩

/-- Container.getAll (Container.js lines 112-134): all rows ordered by
created_at descending, each with its password decrypted. -/
def Container.getAll (c : SymCipher) (db : List Row) : List Row :=
  (List.insertionSort byCreatedDesc db).map
    (fun r => { r with password := CryptoUtils.decrypt c r.password })

/-! ContainerService (ContainerService.js). -/

/-- The summary object built for each container by
ContainerService.listContainers (lines 123-132); it carries exactly these
fields and in particular no password. -/
structure ContainerSummary where
  id : Nat
  ct_id : String
  name : String
  ip_address : Option String
  username : String
  status : String
  jenkins_job_id : Option String
  created_at : Nat
  deriving DecidableEq

/-- The summary of one (already decrypted) row. -/
def rowToSummary (r : Row) : ContainerSummary :=
  { id := r.id, ct_id := r.ct_id, name := r.name, ip_address := r.ip_address,
    username := r.username, status := r.status,
    jenkins_job_id := r.jenkins_job_id, created_at := r.created_at }

/-- ContainerService.listContainers (lines 118-138). -/
def ContainerService.listContainers (c : SymCipher) (db : List Row) :
    List ContainerSummary :=
  (Container.getAll c db).map rowToSummary

/-- The access object returned by ContainerService.getContainerAccess. -/
structure AccessResponse where
  ct_id : String
  ip_address : Option String
  username : String
  password : Option String
  deriving DecidableEq

/-- ContainerService.getContainerAccess (lines 86-116): not-found and
not-running failures are rethrown wrapped by the catch block; on a running
container the decrypted credential bundle is returned. -/
def ContainerService.getContainerAccess (c : SymCipher) (db : List Row)
    (ct_id : String) : Except String AccessResponse :=
  match Container.findByCtId c db ct_id with
  | none => .error "Failed to get container access: Container not found"
  | some container =>
    if container.status ≠ "running" then
      .error "Failed to get container access: Container is not running"
    else
      .ok { ct_id := container.ct_id, ip_address := container.ip_address,
            username := container.username, password := container.password }

/-- The result of ProxmoxService.createContainer (lines 64-68). -/
structure PxCreateResult where
  vmid : Nat
  hostname : String
  taskId : String
  deriving DecidableEq

/-- The validated request body handed to ContainerService.createContainer. -/
structure CreateRequest where
  name : String
  hostname : String
  cores : JsVal
  memory : JsVal
  disk : JsVal
  ostemplate : JsVal
  jenkins_job_id : Option String
  additionalConfig : List (String × JsVal)

/-- The container part of the createContainer response (lines 69-76). -/
structure CreateResponse where
  id : Nat
  ct_id : Nat
  name : String
  hostname : String
  username : String
  status : String
  deriving DecidableEq

/-- ContainerService.createContainer (lines 11-84): generates a password,
creates the container on Proxmox (outcome passed as `px`), then persists the
record; any error is rethrown wrapped. The 10-second deferred IP follow-up is
modelled separately as `deferredIpFollowUp`. -/
def ContainerService.createContainer (c : SymCipher) (iv : List Nat)
    (generatedPassword defaultUsername : String)
    (px : Except String PxCreateResult) (req : CreateRequest) (db : List Row)
    (newId now : Nat) : Except String CreateResponse × List Row :=
  match px with
  | .error msg => (.error ("Failed to create container: " ++ msg), db)
  | .ok r =>
    match Container.create c iv db
        { ct_id := toString r.vmid, name := req.name,
          username := defaultUsername, password := generatedPassword,
          jenkins_job_id := req.jenkins_job_id } newId now with
    | .error e => (.error ("Failed to create container: " ++ e), db)
    | .ok (db2, created) =>
      (.ok { id := created.id, ct_id := r.vmid, name := req.name,
             hostname := req.hostname, username := defaultUsername,
             status := "creating" }, db2)

/-- The body of the setTimeout callback scheduled by createContainer (lines
53-65): it resolves the container IP (getContainerIP never throws — it
returns null on any failure) and then unconditionally calls
Container.updateStatus with status "running" and that result. -/
def deferredIpFollowUp (db : List Row) (vmid : Nat) (ipResult : Option String)
    (now : Nat) : List Row :=
  (Container.updateStatus db (toString vmid) "running" ipResult now).1

/-! ProxmoxService.createContainer configuration merge (lines 28-42). -/

/-- The process environment defaults read by the merge. -/
structure PxEnv where
  ctDefaultOstemplate : JsVal
  ctDefaultCores : JsVal
  ctDefaultMemory : JsVal
  ctDefaultDisk : JsVal
  ctDefaultPassword : JsVal

/-- The config argument of ProxmoxService.createContainer. -/
structure PxConfig where
  vmid : JsVal
  ostemplate : JsVal
  hostname : String
  cores : JsVal
  memory : JsVal
  swap : JsVal
  disk : JsVal
  net0 : JsVal
  rootfs : JsVal
  storage : JsVal
  password : JsVal
  unprivileged : JsVal
  start : JsVal
  additionalConfig : List (String × JsVal)

/-- The key/value pairs of the containerConfig object literal before the
spread of additionalConfig, in source order (lines 29-40); `nextVmid` stands
for the value `getNextVMID()` would produce. -/
def baseContainerConfig (env : PxEnv) (nextVmid : Nat) (config : PxConfig) :
    List (String × JsVal) :=
  [("vmid", jsOr config.vmid (.n nextVmid)),
   ("ostemplate", jsOr config.ostemplate env.ctDefaultOstemplate),
   ("hostname", .s config.hostname),
   ("cores", jsOr config.cores (jsOr env.ctDefaultCores (.n 1))),
   ("memory", jsOr config.memory (jsOr env.ctDefaultMemory (.n 512))),
   ("swap", jsOr config.swap (.n 512)),
   ("net0", jsOr config.net0 (.s "name=eth0,bridge=vmbr0,ip=dhcp")),
   ("rootfs", jsOr config.rootfs
      (.s ("local-lvm:" ++
        (jsOr config.disk (jsOr env.ctDefaultDisk (.n 8))).toStr))),
   ("storage", jsOr config.storage (.s "local-lvm")),
   ("password", jsOr config.password
      (jsOr env.ctDefaultPassword (.s "password"))),
   ("unprivileged", if config.unprivileged = .undef then .n 1
                    else config.unprivileged),
   ("start", if config.start = .undef then .n 1 else config.start)]

/-- Field lookup in the submitted containerConfig after
`...config.additionalConfig`: a key present in additionalConfig overrides the
base value. -/
def submittedConfig (env : PxEnv) (nextVmid : Nat) (config : PxConfig)
    (key : String) : Option JsVal :=
  match config.additionalConfig.lookup key with
  | some v => some v
  | none => (baseContainerConfig env nextVmid config).lookup key

/-- The PxConfig that ContainerService.createContainer builds from the request
(ContainerService.js lines 31-39): only hostname, cores, memory, disk,
ostemplate, the generated password and the raw additionalConfig are passed. -/
def serviceProxmoxConfig (req : CreateRequest) (generatedPassword : String) :
    PxConfig :=
  { vmid := .undef, ostemplate := req.ostemplate, hostname := req.hostname,
    cores := req.cores, memory := req.memory, swap := .undef,
    disk := req.disk, net0 := .undef, rootfs := .undef, storage := .undef,
    password := .s generatedPassword, unprivileged := .undef,
    start := .undef, additionalConfig := req.additionalConfig }

/-- Lookup in the configuration submitted to Proxmox for a creation request
coming through ContainerService.createContainer. -/
def submittedCreateConfig (env : PxEnv) (nextVmid : Nat) (req : CreateRequest)
    (generatedPassword : String) (key : String) : Option JsVal :=
  submittedConfig env nextVmid (serviceProxmoxConfig req generatedPassword) key

/-! ProxmoxService.waitForTask (lines 94-128). -/

/-- Outcome of one status poll: a task object with status and exitstatus, a
response without usable data, or a thrown request error. -/
inductive PollResult where
  | status (s : String) (exitstatus : String)
  | noData
  | netError
  deriving DecidableEq

/-- Outcome of the whole waitForTask loop. -/
inductive TaskOutcome where
  | success
  | taskFailed (exitstatus : String)
  | timeout
  deriving DecidableEq

/-- Whether a poll result terminates the loop (task status "stopped"). -/
def isTerminal : PollResult → Bool
  | .status s _ => s = "stopped"
  | _ => false

/-- Milliseconds slept after a non-terminal poll: 2000 after a normal check,
5000 after a thrown polling error (lines 117 and 123). -/
def stepDelay : PollResult → Nat
  | .netError => 5000
  | _ => 2000

/-- Elapsed milliseconds when the i-th poll is issued, for a given response
stream. -/
def elapsedAt (responses : Nat → PollResult) : Nat → Nat
  | 0 => 0
  | i + 1 => elapsedAt responses i + stepDelay (responses i)

/-- The waitForTask polling loop body: `i` is the index of the next poll and
`elapsed` the milliseconds spent so far (the Date.now() difference). While the
deadline has not passed: a "stopped" task returns success on exitstatus "0"
and a TaskFailedError otherwise (rethrown past the catch block); any other
poll outcome sleeps and retries. Reaching the deadline yields the
TaskTimeoutError. The returned number is the elapsed time at termination. -/
def waitForTaskAux (responses : Nat → PollResult) (maxWait i elapsed : Nat) :
    TaskOutcome × Nat :=
  if elapsed < maxWait then
    match responses i with
    | .status st ex =>
      if st = "stopped" then
        if ex = "0" then (.success, elapsed)
        else (.taskFailed ex, elapsed)
      else waitForTaskAux responses maxWait (i + 1) (elapsed + 2000)
    | .noData => waitForTaskAux responses maxWait (i + 1) (elapsed + 2000)
    | .netError => waitForTaskAux responses maxWait (i + 1) (elapsed + 5000)
  else (.timeout, elapsed)
  termination_by maxWait - elapsed
  decreasing_by all_goals omega

/-- ProxmoxService.waitForTask with its default 300000 ms deadline made
explicit. -/
def waitForTask (responses : Nat → PollResult) (maxWait : Nat := 300000) :
    TaskOutcome × Nat :=
  waitForTaskAux responses maxWait 0 0

/-! ProxmoxService.getContainerIP (lines 169-218). -/

/-- The container config object returned by the /config endpoint; only net0
matters here. -/
structure LxcConfig where
  net0 : Option String

/-- One address entry of an agent-reported interface. -/
structure IpEntry where
  addrType : String
  addr : String

/-- One agent-reported network interface. -/
structure Iface where
  name : String
  ipAddresses : Option (List IpEntry)

/-- The regex search /ip=([^,]+)/ : find the first position where "ip="
is followed by at least one non-comma character and capture that run; if the
capture would be empty the search resumes at the next position. -/
def findIpCapture : List Char → Option (List Char)
  | [] => none
  | c :: rest =>
    if c = 'i' then
      match rest with
      | 'p' :: '=' :: tail =>
        let cap := tail.takeWhile (fun ch => ch ≠ ',')
        if cap.isEmpty then findIpCapture rest else some cap
      | _ => findIpCapture rest
    else findIpCapture rest

/-- JavaScript `addr.startsWith` applied with the loopback marker "127.". -/
def startsWith127 (s : String) : Bool :=
  match s.data with
  | '1' :: '2' :: '7' :: '.' :: _ => true
  | _ => false

/-- The nested loop over agent interfaces (lines 199-207): first address of
type ipv4 not starting with "127." on an interface named eth0. -/
def firstEthIpv4 : List Iface → Option String
  | [] => none
  | i :: rest =>
    if i.name = "eth0" then
      match i.ipAddresses with
      | some entries =>
        match entries.find?
            (fun e => e.addrType = "ipv4" && !(startsWith127 e.addr)) with
        | some e => some e.addr
        | none => firstEthIpv4 rest
      | none => firstEthIpv4 rest
    else firstEthIpv4 rest

/-- ProxmoxService.getContainerIP: after the grace delay, fetch the config
(`cfgFetch`; a thrown request error hits the outer catch and yields null);
when net0 encodes a static non-dhcp address return it with any "/prefix"
suffix stripped; otherwise query the agent (`agentFetch`; a thrown error hits
the inner catch) and scan for an eth0 ipv4 non-loopback address; otherwise
null. -/
def getContainerIP (cfgFetch : Except Unit (Option LxcConfig))
    (agentFetch : Except Unit (Option (List Iface))) : Option String :=
  match cfgFetch with
  | .error _ => none
  | .ok cfgData =>
    let staticIp : Option String :=
      match cfgData with
      | some cfg =>
        match cfg.net0 with
        | some n0 =>
          match findIpCapture n0.data with
          | some cap =>
            if String.mk cap = "dhcp" then none
            else some (String.mk (cap.takeWhile (fun ch => ch ≠ '/')))
          | none => none
        | none => none
      | none => none
    match staticIp with
    | some ip => some ip
    | none =>
      match agentFetch with
      | .error _ => none
      | .ok none => none
      | .ok (some ifaces) => firstEthIpv4 ifaces

/-- No usable agent answer: the agent call threw, returned no data, or its
interface list contains no eth0 ipv4 non-loopback address. -/
def agentUnusable : Except Unit (Option (List Iface)) → Prop
  | .error _ => True
  | .ok none => True
  | .ok (some ifaces) => firstEthIpv4 ifaces = none

/-! Helper lemmas about the hex encoding and the colon-split. -/

theorem hexDigit_ne_colon (v : Nat) : hexDigit v ≠ ':' := by
  have key : ∀ k, k < 16 → "0123456789abcdef".data.getD k '0' ≠ ':' := by
    decide
  exact key (v % 16) (Nat.mod_lt _ (by omega))

theorem hexVal_hexDigit : ∀ v, v < 16 → hexVal (hexDigit v) = v := by decide

theorem colon_notMem_hexChars (bs : List Nat) : ':' ∉ hexChars bs := by
  induction bs with
  | nil => simp [hexChars]
  | cons b rest ih =>
    simp only [hexChars, List.mem_cons, not_or]
    exact ⟨(hexDigit_ne_colon _).symm, (hexDigit_ne_colon _).symm, ih⟩

theorem unhexChars_hexChars (bs : List Nat) (h : ∀ b ∈ bs, b < 256) :
    unhexChars (hexChars bs) = bs := by
  induction bs with
  | nil => rfl
  | cons b rest ih =>
    have hb : b < 256 := h b (List.mem_cons_self b rest)
    have hdiv : b / 16 < 16 := by omega
    have hmod : b % 16 < 16 := by omega
    simp only [hexChars, unhexChars, hexVal_hexDigit _ hdiv,
      hexVal_hexDigit _ hmod]
    rw [ih (fun x hx => h x (List.mem_cons_of_mem _ hx))]
    congr 1
    omega

theorem splitOnColon_of_not_mem (l : List Char) (h : ':' ∉ l) :
    splitOnColon l = [l] := by
  induction l with
  | nil => rfl
  | cons c rest ih =>
    have hc : ¬ c = ':' := fun hx => h (hx ▸ List.mem_cons_self c rest)
    have hr := ih (fun hx => h (List.mem_cons_of_mem _ hx))
    simp only [splitOnColon, if_neg hc, hr]
    rfl

theorem splitOnColon_append (a b : List Char) (h : ':' ∉ a) :
    splitOnColon (a ++ ':' :: b) = a :: splitOnColon b := by
  induction a with
  | nil =>
    show splitOnColon (':' :: b) = [] :: splitOnColon b
    simp [splitOnColon]
  | cons c rest ih =>
    have hc : ¬ c = ':' := fun hx => h (hx ▸ List.mem_cons_self c rest)
    have hr := ih (fun hx => h (List.mem_cons_of_mem _ hx))
    show splitOnColon (c :: (rest ++ ':' :: b)) = (c :: rest) :: splitOnColon b
    simp only [splitOnColon, if_neg hc, hr]
    rfl

theorem append_colon_inj (a : List Char) : ∀ (b x y : List Char),
    ':' ∉ a → ':' ∉ b → a ++ ':' :: x = b ++ ':' :: y → a = b ∧ x = y := by
  induction a with
  | nil =>
    intro b x y _ hb h
    cases b with
    | nil => simpa using h
    | cons d b2 =>
      simp only [List.nil_append, List.cons_append, List.cons.injEq] at h
      exact absurd (h.1.symm ▸ List.mem_cons_self d b2) hb
  | cons c a2 ih =>
    intro b x y ha hb h
    cases b with
    | nil =>
      simp only [List.cons_append, List.nil_append, List.cons.injEq] at h
      exact absurd (h.1 ▸ List.mem_cons_self c a2) ha
    | cons d b2 =>
      simp only [List.cons_append, List.cons.injEq] at h
      obtain ⟨rfl, h2⟩ := h
      obtain ⟨h3, h4⟩ := ih b2 x y
        (fun hx => ha (List.mem_cons_of_mem _ hx))
        (fun hx => hb (List.mem_cons_of_mem _ hx)) h2
      exact ⟨by rw [h3], h4⟩

/-! Helper lemmas about the concrete witness cipher. -/

theorem encChars_colon (l : List Char) :
    encChars (':' :: l) = '!' :: 'c' :: encChars l := rfl

theorem encChars_bang (l : List Char) :
    encChars ('!' :: l) = '!' :: 'b' :: encChars l := rfl

theorem encChars_other (c : Char) (l : List Char) (hc : c ≠ ':')
    (hb : c ≠ '!') : encChars (c :: l) = c :: encChars l := by
  simp only [encChars, if_neg hc, if_neg hb]

theorem decChars_bang_c (l : List Char) :
    decChars ('!' :: 'c' :: l) = ':' :: decChars l := rfl

theorem decChars_bang_b (l : List Char) :
    decChars ('!' :: 'b' :: l) = '!' :: decChars l := rfl

theorem decChars_other (c d : Char) (l : List Char) (hb : c ≠ '!') :
    decChars (c :: d :: l) = c :: decChars (d :: l) := by
  simp only [decChars, if_neg hb]

theorem decChars_encChars (l : List Char) : decChars (encChars l) = l := by
  induction l with
  | nil => rfl
  | cons c rest ih =>
    by_cases hc : c = ':'
    · subst hc
      rw [encChars_colon, decChars_bang_c, ih]
    · by_cases hb : c = '!'
      · subst hb
        rw [encChars_bang, decChars_bang_b, ih]
      · rw [encChars_other c rest hc hb]
        cases h : encChars rest with
        | nil =>
          have hr : rest = [] := by
            have h2 := ih
            rw [h] at h2
            exact h2.symm
          subst hr
          rfl
        | cons d r2 =>
          rw [h] at ih
          rw [decChars_other c d r2 hb, ih]

theorem colon_notMem_encChars (l : List Char) : ':' ∉ encChars l := by
  induction l with
  | nil => simp [encChars]
  | cons c rest ih =>
    by_cases hc : c = ':'
    · subst hc
      rw [encChars_colon]
      simp only [List.mem_cons, not_or]
      exact ⟨by decide, by decide, ih⟩
    · by_cases hb : c = '!'
      · subst hb
        rw [encChars_bang]
        simp only [List.mem_cons, not_or]
        exact ⟨by decide, by decide, ih⟩
      · rw [encChars_other c rest hc hb]
        simp only [List.mem_cons, not_or]
        exact ⟨fun hx => hc hx.symm, ih⟩

theorem toyCipher_roundtrip : CipherRoundtrip toyCipher := by
  intro s
  show String.mk (decChars (String.mk (encChars s.data)).data) = s
  cases s with
  | mk data => simp [decChars_encChars]

theorem toyCipher_colonFree : CipherColonFree toyCipher := by
  intro s
  exact colon_notMem_encChars s.data

/-- Claim C6, as stated, is false: Encrypt composed after Decrypt does not
reproduce the original envelope, because encrypt prepends a fresh IV prefix.
At the non-empty envelope "01:xx" (whose decryption succeeds) and the
recorded 16-byte IV of the new encrypt call, the result differs from the
input. -/
theorem c6_counterexample :
    CryptoUtils.encrypt toyCipher (List.replicate 16 0)
        (CryptoUtils.decrypt toyCipher (some "01:xx")) ≠ some "01:xx" := by
  decide

/-- Claim C6 (amended): for every non-empty string t,
Decrypt(Encrypt(t)) = t (the composition in this order round-trips, for any
IV, since the cipher ignores the IV and its hex output contains no colon);
moreover Encrypt of the empty string is null and Decrypt of null is null. -/
theorem c6_encrypt_decrypt (c : SymCipher) (hrt : CipherRoundtrip c)
    (hcf : CipherColonFree c) (iv : List Nat) (t : String) (ht : t ≠ "") :
    CryptoUtils.decrypt c (CryptoUtils.encrypt c iv (some t)) = some t ∧
    CryptoUtils.encrypt c iv (some "") = none ∧
    CryptoUtils.decrypt c none = none := by
  refine ⟨?_, by simp [CryptoUtils.encrypt], rfl⟩
  have henv : String.mk (hexChars iv ++ ':' :: (c.enc t).data) ≠ "" := by
    intro h
    have h2 : hexChars iv ++ ':' :: (c.enc t).data = [] := congrArg String.data h
    simp at h2
  simp only [CryptoUtils.encrypt, if_neg ht, CryptoUtils.decrypt,
    if_neg henv]
  rw [splitOnColon_append _ _ (colon_notMem_hexChars iv),
      splitOnColon_of_not_mem _ (hcf t)]
  show some (c.dec (String.mk (c.enc t).data)) = some t
  rw [show String.mk (c.enc t).data = c.enc t from rfl, hrt t]

/-- Witness for C6 (amended) at the concrete cipher, a zero IV and the
plaintext "pw". -/
theorem c6_witness :
    CryptoUtils.decrypt toyCipher
        (CryptoUtils.encrypt toyCipher (List.replicate 16 0) (some "pw")) =
      some "pw" ∧
    CryptoUtils.encrypt toyCipher (List.replicate 16 0) (some "") = none ∧
    CryptoUtils.decrypt toyCipher none = none :=
  c6_encrypt_decrypt toyCipher toyCipher_roundtrip toyCipher_colonFree
    (List.replicate 16 0) "pw" (by decide)

/-- Claim C7: two Encrypt calls on the same non-empty plaintext with distinct
per-call 16-byte IVs always produce distinct ciphertext envelopes, since the
envelope is ivHex + colon + cipherHex and the hex IV prefix is recoverable
from the envelope. -/
theorem c7_encrypt_distinct_envelopes (c : SymCipher) (iv₁ iv₂ : List Nat)
    (t : String) (h1 : ValidIV iv₁) (h2 : ValidIV iv₂) (hne : iv₁ ≠ iv₂)
    (ht : t ≠ "") :
    CryptoUtils.encrypt c iv₁ (some t) ≠ CryptoUtils.encrypt c iv₂ (some t) := by
  simp only [CryptoUtils.encrypt, if_neg ht]
  intro h
  rw [Option.some.injEq] at h
  have hl : hexChars iv₁ ++ ':' :: (c.enc t).data
      = hexChars iv₂ ++ ':' :: (c.enc t).data := congrArg String.data h
  obtain ⟨hp, -⟩ := append_colon_inj (hexChars iv₁) (hexChars iv₂) _ _
    (colon_notMem_hexChars iv₁) (colon_notMem_hexChars iv₂) hl
  apply hne
  calc iv₁ = unhexChars (hexChars iv₁) := (unhexChars_hexChars iv₁ h1.2).symm
    _ = unhexChars (hexChars iv₂) := by rw [hp]
    _ = iv₂ := unhexChars_hexChars iv₂ h2.2

/-- Witness for C7 at two concrete distinct 16-byte IVs and plaintext
"pw". -/
theorem c7_witness :
    CryptoUtils.encrypt toyCipher (List.replicate 16 0) (some "pw") ≠
      CryptoUtils.encrypt toyCipher (1 :: List.replicate 15 0) (some "pw") :=
  c7_encrypt_distinct_envelopes toyCipher (List.replicate 16 0)
    (1 :: List.replicate 15 0) "pw" ⟨rfl, by decide⟩ ⟨rfl, by decide⟩
    (by decide) (by decide)

/-- Claim C10: updateStatus called with a null address leaves every row's
ip_address unchanged and modifies only the status and updated_at columns of
the rows matching the ct_id; rows that do not match are untouched. -/
theorem c10_updateStatus_null_ip_frame (db : List Row) (ct status : String)
    (now : Nat) :
    List.Forall₂ (fun r r2 =>
        r2.ip_address = r.ip_address ∧ r2.id = r.id ∧ r2.ct_id = r.ct_id ∧
        r2.name = r.name ∧ r2.username = r.username ∧
        r2.password = r.password ∧ r2.jenkins_job_id = r.jenkins_job_id ∧
        r2.created_at = r.created_at ∧
        (r.ct_id = ct → r2.status = status ∧ r2.updated_at = now) ∧
        (r.ct_id ≠ ct → r2 = r))
      db (Container.updateStatus db ct status none now).1 := by
  unfold Container.updateStatus
  rw [List.forall₂_map_right_iff, List.forall₂_same]
  intro r _
  by_cases h : r.ct_id = ct
  · simp [h, jsTruthyStr]
  · simp [h]

/-- Claim C1, as stated, is false: when address resolution returns null, the
deferred follow-up still updates the record's status. On a single-row table
whose record is in status creating, running the follow-up body with a null
resolved address leaves the record in status "running", not "creating". -/
theorem c1_counterexample :
    (deferredIpFollowUp
        [{ id := 1, ct_id := "101", name := "ci-build", ip_address := none,
           username := "root", password := some "00:aa",
           status := "creating", jenkins_job_id := none, created_at := 1,
           updated_at := 1 }] 101 none 2).map Row.status = ["running"] := by
  decide

/-- Claim C1 (amended): the deferred follow-up unconditionally sets the
matched record's status to running (and refreshes updated_at) — also when
resolution returned null, since getContainerIP reports failure as a null
value rather than an error; the network address is set only when resolution
returned a truthy (non-null, non-empty) address and is otherwise left
unchanged; other records are untouched. -/
theorem c1_followUp (db : List Row) (vmid : Nat) (ipResult : Option String)
    (now : Nat) :
    List.Forall₂ (fun r r2 =>
        (r.ct_id = toString vmid →
          r2.status = "running" ∧ r2.updated_at = now ∧
          (jsTruthyStr ipResult = true → r2.ip_address = ipResult) ∧
          (jsTruthyStr ipResult = false → r2.ip_address = r.ip_address)) ∧
        (r.ct_id ≠ toString vmid → r2 = r))
      db (deferredIpFollowUp db vmid ipResult now) := by
  unfold deferredIpFollowUp Container.updateStatus
  rw [List.forall₂_map_right_iff, List.forall₂_same]
  intro r _
  by_cases h : r.ct_id = toString vmid
  · by_cases hip : jsTruthyStr ipResult
    · simp [h, hip]
    · simp [h, hip]
  · simp [h]

/-- Claim C4: getContainerAccess fails with the not-found error when no row
matches the externalId, fails with the not-running error (returning no
credential fields) whenever the matched row's status is not running, and
returns the credential bundle with the decrypted password exactly when the
status is running. -/
theorem c4_getContainerAccess (c : SymCipher) (db : List Row) (ct : String) :
    (db.find? (fun r => r.ct_id = ct) = none →
      ContainerService.getContainerAccess c db ct =
        .error "Failed to get container access: Container not found") ∧
    (∀ r, db.find? (fun r => r.ct_id = ct) = some r → r.status ≠ "running" →
      ContainerService.getContainerAccess c db ct =
        .error "Failed to get container access: Container is not running") ∧
    (∀ r, db.find? (fun r => r.ct_id = ct) = some r → r.status = "running" →
      ContainerService.getContainerAccess c db ct =
        .ok { ct_id := r.ct_id, ip_address := r.ip_address,
              username := r.username,
              password := CryptoUtils.decrypt c r.password }) := by
  refine ⟨?_, ?_, ?_⟩
  · intro h
    unfold ContainerService.getContainerAccess Container.findByCtId
    rw [h]
  · intro r h hs
    unfold ContainerService.getContainerAccess Container.findByCtId
    rw [h]
    simp [hs]
  · intro r h hs
    unfold ContainerService.getContainerAccess Container.findByCtId
    rw [h]
    simp [hs]

/-- Witness for C4: on an empty table, access for id "999" is the not-found
error; on a table whose only record is still creating, access is the
not-running error. -/
theorem c4_witness :
    ContainerService.getContainerAccess toyCipher [] "999" =
      .error "Failed to get container access: Container not found" ∧
    ContainerService.getContainerAccess toyCipher
        [{ id := 1, ct_id := "101", name := "ci-build", ip_address := none,
           username := "root", password := some "00:aa",
           status := "creating", jenkins_job_id := none, created_at := 1,
           updated_at := 1 }] "101" =
      .error "Failed to get container access: Container is not running" :=
  ⟨(c4_getContainerAccess toyCipher [] "999").1 rfl,
   (c4_getContainerAccess toyCipher _ "101").2.1
     { id := 1, ct_id := "101", name := "ci-build", ip_address := none,
       username := "root", password := some "00:aa", status := "creating",
       jenkins_job_id := none, created_at := 1, updated_at := 1 }
     (by decide) (by decide)⟩

/-- Claim C9, as stated, is false: the summaries returned by listContainers
do not carry the records' credentials. Two tables that differ only in one
record's stored password (which decrypts to two different plaintexts) produce
identical listContainers outputs, so the decrypted credentials cannot be part
of the returned summaries. -/
theorem c9_counterexample :
    ContainerService.listContainers toyCipher
        [{ id := 1, ct_id := "101", name := "ci-build", ip_address := none,
           username := "root", password := some "00:aa", status := "running",
           jenkins_job_id := none, created_at := 1, updated_at := 1 }] =
      ContainerService.listContainers toyCipher
        [{ id := 1, ct_id := "101", name := "ci-build", ip_address := none,
           username := "root", password := some "00:bb", status := "running",
           jenkins_job_id := none, created_at := 1, updated_at := 1 }] ∧
    CryptoUtils.decrypt toyCipher (some "00:aa") ≠
      CryptoUtils.decrypt toyCipher (some "00:bb") := by
  decide

/-- Claim C9 (amended): listContainers returns one summary per persisted row,
ordered reverse-chronologically by created_at; the record store decrypts the
stored passwords while reading, but the returned summaries omit the password
field, so they are exactly the rows stripped of credentials. -/
theorem c9_listContainers (c : SymCipher) (db : List Row) :
    List.Pairwise (fun a b => b.created_at ≤ a.created_at)
      (ContainerService.listContainers c db) ∧
    List.Perm (ContainerService.listContainers c db) (db.map rowToSummary) := by
  constructor
  · unfold ContainerService.listContainers Container.getAll
    rw [List.map_map, List.pairwise_map]
    exact (List.sorted_insertionSort byCreatedDesc db).imp (fun h => h)
  · unfold ContainerService.listContainers Container.getAll
    rw [List.map_map]
    have hmap : (List.insertionSort byCreatedDesc db).map
        (rowToSummary ∘ fun r =>
          { r with password := CryptoUtils.decrypt c r.password }) =
        (List.insertionSort byCreatedDesc db).map rowToSummary :=
      List.map_congr_left (fun r _ => rfl)
    rw [hmap]
    exact (List.perm_insertionSort byCreatedDesc db).map rowToSummary

/-- Claim C2: createContainer either fails without touching the table — in
particular when the Proxmox creation step fails, the wrapped error is
returned and no record row is written — or returns a response with status
creating and a fresh externalId, preserving uniqueness of ct_id across the
table. -/
theorem c2_createContainer (c : SymCipher) (iv : List Nat) (gp du : String)
    (px : Except String PxCreateResult) (req : CreateRequest) (db : List Row)
    (newId now : Nat) :
    (∀ msg, px = .error msg →
      ContainerService.createContainer c iv gp du px req db newId now =
        (.error ("Failed to create container: " ++ msg), db)) ∧
    (∀ e,
      (ContainerService.createContainer c iv gp du px req db newId now).1 =
        .error e →
      (ContainerService.createContainer c iv gp du px req db newId now).2 =
        db) ∧
    (∀ resp,
      (ContainerService.createContainer c iv gp du px req db newId now).1 =
        .ok resp →
      resp.status = "creating" ∧
      db.any (fun r => r.ct_id = toString resp.ct_id) = false ∧
      ((db.map (fun r => r.ct_id)).Nodup →
        (((ContainerService.createContainer c iv gp du px req db newId
            now).2).map (fun r => r.ct_id)).Nodup)) := by
  cases px with
  | error msg =>
    refine ⟨?_, ?_, ?_⟩
    · intro m hm
      cases hm
      rfl
    · intro e _
      rfl
    · intro resp h
      exact absurd h (by simp [ContainerService.createContainer])
  | ok r =>
    unfold ContainerService.createContainer Container.create
    by_cases hdup : db.any (fun row => row.ct_id = toString r.vmid)
    · refine ⟨?_, ?_, ?_⟩
      · intro m hm
        exact Except.noConfusion hm
      · simp [hdup]
      · simp [hdup]
    · cases henc : CryptoUtils.encrypt c iv (some gp) with
      | none =>
        refine ⟨?_, ?_, ?_⟩
        · intro m hm
          exact Except.noConfusion hm
        · simp [hdup, henc]
        · simp [hdup, henc]
      | some encPw =>
        refine ⟨?_, ?_, ?_⟩
        · intro m hm
          exact Except.noConfusion hm
        · simp [hdup, henc]
        · intro resp h
          simp only [Bool.not_eq_true] at hdup
          simp only [hdup, Bool.false_eq_true, if_false, henc] at h ⊢
          rw [Except.ok.injEq] at h
          subst h
          refine ⟨rfl, hdup, fun hnd => ?_⟩
          rw [List.map_append, List.nodup_append]
          refine ⟨hnd, List.nodup_singleton _, ?_⟩
          intro a ha hb
          simp only [List.map_cons, List.map_nil, List.mem_singleton] at hb
          subst hb
          rw [List.mem_map] at ha
          obtain ⟨row, hrow, hct⟩ := ha
          rw [List.any_eq_false] at hdup
          exact absurd (by simpa [hct]) (by simpa using hdup row hrow)

/-- Witness for C2: a failed Proxmox creation leaves the empty table empty
and returns the wrapped error; a successful one returns a response in status
creating whose externalId is fresh. -/
theorem c2_witness :
    ContainerService.createContainer toyCipher (List.replicate 16 0) "pw12"
        "root" (.error "connect ECONNREFUSED")
        { name := "ci-build", hostname := "ci-01", cores := .undef,
          memory := .undef, disk := .undef, ostemplate := .undef,
          jenkins_job_id := none, additionalConfig := [] } [] 1 5 =
      (.error "Failed to create container: connect ECONNREFUSED", []) ∧
    ({ id := 1, ct_id := 101, name := "ci-build", hostname := "ci-01",
       username := "root", status := "creating" } : CreateResponse).status =
        "creating" ∧
    ([] : List Row).any (fun r => r.ct_id = toString (101 : Nat)) = false ∧
    ((([] : List Row).map (fun r => r.ct_id)).Nodup →
      (((ContainerService.createContainer toyCipher (List.replicate 16 0)
          "pw12" "root"
          (.ok { vmid := 101, hostname := "ci-01", taskId := "UPID" })
          { name := "ci-build", hostname := "ci-01", cores := .undef,
            memory := .undef, disk := .undef, ostemplate := .undef,
            jenkins_job_id := none, additionalConfig := [] } [] 1 5).2).map
        (fun r => r.ct_id)).Nodup) :=
  ⟨(c2_createContainer toyCipher (List.replicate 16 0) "pw12" "root"
      (.error "connect ECONNREFUSED")
      { name := "ci-build", hostname := "ci-01", cores := .undef,
        memory := .undef, disk := .undef, ostemplate := .undef,
        jenkins_job_id := none, additionalConfig := [] } [] 1 5).1
      "connect ECONNREFUSED" rfl,
   (c2_createContainer toyCipher (List.replicate 16 0) "pw12" "root"
      (.ok { vmid := 101, hostname := "ci-01", taskId := "UPID" })
      { name := "ci-build", hostname := "ci-01", cores := .undef,
        memory := .undef, disk := .undef, ostemplate := .undef,
        jenkins_job_id := none, additionalConfig := [] } [] 1 5).2.2
      { id := 1, ct_id := 101, name := "ci-build", hostname := "ci-01",
        username := "root", status := "creating" } rfl⟩

/-- Claim C3, as stated, is false: the additionalConfig passthrough is spread
over the containerConfig object after the password field, so a caller whose
additionalConfig carries a password key replaces the freshly generated
password in the configuration submitted to the hypervisor. -/
theorem c3_counterexample :
    submittedCreateConfig
        { ctDefaultOstemplate := .undef, ctDefaultCores := .undef,
          ctDefaultMemory := .undef, ctDefaultDisk := .undef,
          ctDefaultPassword := .undef } 100
        { name := "ci-build", hostname := "ci-01", cores := .undef,
          memory := .undef, disk := .undef, ostemplate := .undef,
          jenkins_job_id := none,
          additionalConfig := [("password", .s "attacker-chosen")] }
        "pw12" "password" = some (.s "attacker-chosen") ∧
    JsVal.s "attacker-chosen" ≠ JsVal.s "pw12" := by
  decide

/-- Claim C3 (amended): the password submitted to the hypervisor is the
freshly generated (non-empty) Vault password whenever the caller's
additionalConfig does not itself carry a password key; only that raw
passthrough can replace it. -/
theorem c3_generated_password (env : PxEnv) (nextVmid : Nat)
    (req : CreateRequest) (gp : String)
    (hnone : req.additionalConfig.lookup "password" = none) (hgp : gp ≠ "") :
    submittedCreateConfig env nextVmid req gp "password" = some (.s gp) := by
  unfold submittedCreateConfig submittedConfig
  rw [show (serviceProxmoxConfig req gp).additionalConfig =
        req.additionalConfig from rfl, hnone]
  have hbase : (baseContainerConfig env nextVmid
      (serviceProxmoxConfig req gp)).lookup "password" =
      some (jsOr (.s gp) (jsOr env.ctDefaultPassword (.s "password"))) := rfl
  rw [hbase]
  have htru : (JsVal.s gp).truthy = true := by
    simp [JsVal.truthy, hgp]
  simp [jsOr, htru]

/-- Witness for C3 (amended): with an empty additionalConfig the submitted
password is the generated "pw12". -/
theorem c3_witness :
    submittedCreateConfig
        { ctDefaultOstemplate := .undef, ctDefaultCores := .undef,
          ctDefaultMemory := .undef, ctDefaultDisk := .undef,
          ctDefaultPassword := .undef } 100
        { name := "ci-build", hostname := "ci-01", cores := .undef,
          memory := .undef, disk := .undef, ostemplate := .undef,
          jenkins_job_id := none, additionalConfig := [] }
        "pw12" "password" = some (.s "pw12") :=
  c3_generated_password _ 100 _ "pw12" rfl (by decide)

/-- Claim C8: getContainerIP on a config whose net0 encodes the static
address ip=10.0.0.5/24 returns "10.0.0.5" with the routing prefix stripped,
whatever the agent would answer; on an ip=dhcp config with no usable agent
response it returns null instead of failing. -/
theorem c8_getContainerIP (agentFetch : Except Unit (Option (List Iface))) :
    getContainerIP
        (.ok (some { net0 := some "name=eth0,bridge=vmbr0,ip=10.0.0.5/24" }))
        agentFetch = some "10.0.0.5" ∧
    (agentUnusable agentFetch →
      getContainerIP
          (.ok (some { net0 := some "name=eth0,bridge=vmbr0,ip=dhcp" }))
          agentFetch = none) := by
  constructor
  · rfl
  · intro h
    cases agentFetch with
    | error e => rfl
    | ok odata =>
      cases odata with
      | none => rfl
      | some ifaces =>
        show firstEthIpv4 ifaces = none
        exact h

/-- Witness for C8 with a concrete empty agent answer. -/
theorem c8_witness :
    getContainerIP
        (.ok (some { net0 := some "name=eth0,bridge=vmbr0,ip=10.0.0.5/24" }))
        (.ok none) = some "10.0.0.5" ∧
    getContainerIP
        (.ok (some { net0 := some "name=eth0,bridge=vmbr0,ip=dhcp" }))
        (.ok none) = none :=
  ⟨(c8_getContainerIP (.ok none)).1, (c8_getContainerIP (.ok none)).2 True.intro⟩

/-! Helper lemmas for the waitForTask polling loop. -/

theorem stepDelay_ge (p : PollResult) : 2000 ≤ stepDelay p := by
  cases p <;> simp [stepDelay]

theorem elapsedAt_succ (r : Nat → PollResult) (i : Nat) :
    elapsedAt r (i + 1) = elapsedAt r i + stepDelay (r i) := rfl

theorem elapsedAt_lt_succ (r : Nat → PollResult) (i : Nat) :
    elapsedAt r i < elapsedAt r (i + 1) := by
  have := stepDelay_ge (r i)
  rw [elapsedAt_succ]
  omega

theorem waitForTaskAux_step (r : Nat → PollResult) (maxWait i : Nat)
    (h : elapsedAt r i < maxWait) (hnt : isTerminal (r i) = false) :
    waitForTaskAux r maxWait i (elapsedAt r i) =
      waitForTaskAux r maxWait (i + 1) (elapsedAt r (i + 1)) := by
  rw [waitForTaskAux.eq_def, if_pos h]
  cases hr : r i with
  | status st ex =>
    have hs : ¬ st = "stopped" := by
      rw [hr] at hnt
      simpa [isTerminal] using hnt
    simp [hs, elapsedAt_succ, hr, stepDelay]
  | noData => simp [elapsedAt_succ, hr, stepDelay]
  | netError => simp [elapsedAt_succ, hr, stepDelay]

theorem waitForTask_advance (r : Nat → PollResult) (maxWait : Nat) :
    ∀ i, (∀ j, j < i → isTerminal (r j) = false) → elapsedAt r i < maxWait →
      waitForTask r maxWait = waitForTaskAux r maxWait i (elapsedAt r i) := by
  intro i
  induction i with
  | zero => intro _ _; rfl
  | succ n ih =>
    intro hnt hel
    have h1 : elapsedAt r n < maxWait :=
      Nat.lt_trans (elapsedAt_lt_succ r n) hel
    rw [ih (fun j hj => hnt j (Nat.lt_succ_of_lt hj)) h1]
    exact waitForTaskAux_step r maxWait n h1 (hnt n (Nat.lt_succ_self n))

theorem waitForTaskAux_stopped (r : Nat → PollResult) (maxWait i : Nat)
    (ex : String) (h : elapsedAt r i < maxWait)
    (hr : r i = .status "stopped" ex) :
    waitForTaskAux r maxWait i (elapsedAt r i) =
      if ex = "0" then (.success, elapsedAt r i)
      else (.taskFailed ex, elapsedAt r i) := by
  rw [waitForTaskAux.eq_def, if_pos h, hr]
  rfl

theorem waitForTaskAux_timeout_all (r : Nat → PollResult) (maxWait : Nat)
    (h : ∀ j, elapsedAt r j < maxWait → isTerminal (r j) = false) :
    ∀ i, (waitForTaskAux r maxWait i (elapsedAt r i)).1 = .timeout ∧
      maxWait ≤ (waitForTaskAux r maxWait i (elapsedAt r i)).2 := by
  have key : ∀ k i, maxWait - elapsedAt r i ≤ k →
      (waitForTaskAux r maxWait i (elapsedAt r i)).1 = .timeout ∧
      maxWait ≤ (waitForTaskAux r maxWait i (elapsedAt r i)).2 := by
    intro k
    induction k with
    | zero =>
      intro i hk
      rw [waitForTaskAux.eq_def, if_neg (by omega)]
      exact ⟨rfl, by omega⟩
    | succ n ih =>
      intro i hk
      by_cases hel : elapsedAt r i < maxWait
      · rw [waitForTaskAux_step r maxWait i hel (h i hel)]
        apply ih
        have hd := stepDelay_ge (r i)
        have he := elapsedAt_succ r i
        omega
      · rw [waitForTaskAux.eq_def, if_neg hel]
        exact ⟨rfl, by omega⟩
  intro i
  exact key (maxWait - elapsedAt r i) i (Nat.le_refl _)

/-- Claim C5: the waitForTask loop returns success when the polled task first
reaches status stopped with exit code "0" inside the deadline (at the elapsed
time of that poll); a stopped task with a non-zero exit code makes it fail
right at that poll's elapsed time, well before the deadline; transient
polling errors only delay the loop by their 5-second backoff (normal polls by
2 seconds, per stepDelay) and never abort it; and if no poll inside the
deadline is terminal, the loop ends in the timeout error with at least
maxWait elapsed. -/
theorem c5_waitForTask (r : Nat → PollResult) (maxWait : Nat) :
    (∀ i, (∀ j, j < i → isTerminal (r j) = false) → elapsedAt r i < maxWait →
      (r i = .status "stopped" "0" →
        waitForTask r maxWait = (.success, elapsedAt r i)) ∧
      (∀ ex, r i = .status "stopped" ex → ex ≠ "0" →
        waitForTask r maxWait = (.taskFailed ex, elapsedAt r i)) ∧
      (r i = .netError →
        waitForTask r maxWait =
          waitForTaskAux r maxWait (i + 1) (elapsedAt r i + 5000))) ∧
    ((∀ j, elapsedAt r j < maxWait → isTerminal (r j) = false) →
      (waitForTask r maxWait).1 = .timeout ∧
      maxWait ≤ (waitForTask r maxWait).2) := by
  constructor
  · intro i hnt hel
    refine ⟨?_, ?_, ?_⟩
    · intro hr
      rw [waitForTask_advance r maxWait i hnt hel,
          waitForTaskAux_stopped r maxWait i "0" hel hr]
      rfl
    · intro ex hr hex
      rw [waitForTask_advance r maxWait i hnt hel,
          waitForTaskAux_stopped r maxWait i ex hel hr, if_neg hex]
    · intro hr
      rw [waitForTask_advance r maxWait i hnt hel,
          waitForTaskAux_step r maxWait i hel (by simp [isTerminal, hr])]
      rw [elapsedAt_succ, hr]
      rfl
  · intro hall
    exact waitForTaskAux_timeout_all r maxWait hall 0

/-- Witness for C5: a stream that polls pending once, hits one transient
error, then reports exit "0" succeeds at 7000 ms; a stream reporting exit "1"
at the first poll fails immediately at 0 ms; an endlessly pending task times
out at a 4000 ms deadline. -/
theorem c5_witness :
    waitForTask (fun i => if i = 0 then .noData else
        if i = 1 then .netError else .status "stopped" "0") 300000 =
      (.success, 7000) ∧
    waitForTask (fun _ => .status "stopped" "1") 300000 =
      (.taskFailed "1", 0) ∧
    (waitForTask (fun _ => .noData) 4000).1 = .timeout ∧
    4000 ≤ (waitForTask (fun _ => .noData) 4000).2 :=
  ⟨((c5_waitForTask (fun i => if i = 0 then .noData else
        if i = 1 then .netError else .status "stopped" "0") 300000).1 2
      (by decide) (by decide)).1 rfl,
   (((c5_waitForTask (fun _ => .status "stopped" "1") 300000).1 0
      (by omega) (by decide)).2.1 "1" rfl (by decide)),
   ((c5_waitForTask (fun _ => .noData) 4000).2 (fun j _ => rfl)).1,
   ((c5_waitForTask (fun _ => .noData) 4000).2 (fun j _ => rfl)).2⟩

end CardinalApp
